import Mathlib

/-!
Shallow embedding of the liveness-detection core of the
Face-recognition-authentication-system repository.

The detector class `SimpleLivenessDetector` lives in
`frontend/src/lib/liveness.ts`, which is not among the repository files
available here; only its callers (`frontend/src/components/WebcamRecognition.tsx`,
`frontend/src/app/start/page.tsx`) and its documentation are.  The detector is
therefore modelled from the specification's words (each such definition says so
in its doc comment), while the session tick loop and the registration handler
are embedded from the TypeScript source.  Real-valued pixel statistics are
embedded over `ℚ` so that every definition is executable.
-/

namespace Liveness

/-- A downsampled video frame as the spec's data model describes it: a sparse
sample of intensity/luminance values plus a capture timestamp (seconds). -/
structure Frame where
  pixels : List ℚ
  timestamp : ℚ
deriving DecidableEq

/-- Arithmetic mean of a list of scores; 0 for the empty list (the
division-by-zero path of the averaging code resolves to 0). -/
def mean (xs : List ℚ) : ℚ :=
  if xs.length = 0 then 0 else xs.sum / xs.length

/-- Population variance of a list of scores; 0 for the empty list. -/
def variance (xs : List ℚ) : ℚ :=
  if xs.length = 0 then 0
  else ((xs.map fun x => (x - mean xs) ^ 2).sum) / xs.length

/-- The most recent `n` entries of a list (all of it when it is shorter). -/
def lastN (n : ℕ) (l : List α) : List α := l.drop (l.length - n)

/-- Modelled from the spec: motion score of a consecutive frame pair, the
fraction of sampled pixel positions whose absolute intensity difference
exceeds the pixel threshold 15 (`liveness.ts` is not among the files here). -/
def motionScore (a b : Frame) : ℚ :=
  let ps := a.pixels.zip b.pixels
  if ps.length = 0 then 0
  else ((ps.filter fun p => decide (15 < |p.1 - p.2|)).length : ℚ) / ps.length

/-- Modelled from the spec: the Motion History, one score per consecutive
frame pair of the buffer (length `bufferLength - 1`). -/
def motionHistory (frames : List Frame) : List ℚ :=
  List.zipWith motionScore frames frames.tail

/-- Modelled from the spec: per-frame edge strength, the sum of absolute
intensity differences between neighbouring sampled pixels, normalized by
the sample count. -/
def edgeStrength (f : Frame) : ℚ :=
  if f.pixels.length = 0 then 0
  else (List.zipWith (fun a b => |a - b|) f.pixels f.pixels.tail).sum / f.pixels.length

/-- Modelled from the spec: the Edge History, one edge-strength scalar per
frame of the buffer. -/
def edgeHistory (frames : List Frame) : List ℚ :=
  frames.map edgeStrength

/-- Modelled from the spec: per-frame total brightness, the sum of the
sampled luminance values. -/
def brightness (f : Frame) : ℚ := f.pixels.sum

/-- Modelled from the spec: the Brightness History, the total brightness of
each of the most recent 5 frames of the buffer (or fewer if fewer are
available). -/
def brightnessHistory (frames : List Frame) : List ℚ :=
  (lastN 5 frames).map brightness

/-- Frame-buffer capacity: the canonical 20 frames of the spec
(`minimum frames = 20`, ring-buffer capacity 20). -/
def MAX_FRAMES : ℕ := 20

/-- Modelled from the spec: the state of `SimpleLivenessDetector` of
`frontend/src/lib/liveness.ts` (file not present here) — the bounded frame
buffer, the cumulative frame counter since the last reset, and the session
start timestamp (seconds). -/
structure SimpleLivenessDetector where
  frames : List Frame
  frameCount : ℕ
  startTime : ℚ
deriving DecidableEq

/-- A fresh detector, constructed at time `now`. -/
def initDetector (now : ℚ) : SimpleLivenessDetector :=
  { frames := [], frameCount := 0, startTime := now }

/-- Modelled from the spec: `addFrame` appends; when the buffer already holds
`MAX_FRAMES` frames the oldest is dropped first, and the cumulative frame
counter always advances. -/
def addFrame (d : SimpleLivenessDetector) (f : Frame) : SimpleLivenessDetector :=
  { d with
    frames := (if d.frames.length = MAX_FRAMES then d.frames.drop 1 else d.frames) ++ [f]
    frameCount := d.frameCount + 1 }

/-- Modelled from the spec: `reset()` clears the buffer, the cumulative frame
counter and the session start timestamp. -/
def reset (_d : SimpleLivenessDetector) (now : ℚ) : SimpleLivenessDetector :=
  { frames := [], frameCount := 0, startTime := now }

/-- Modelled from the spec: `progress()` is `min(100, 100 x frameCount / 20)`,
counting frames accepted since the last reset. -/
def progress (d : SimpleLivenessDetector) : ℚ :=
  min 100 (100 * (d.frameCount : ℚ) / 20)

/-- Modelled from the spec: the Real Motion check (30 pts) passes iff
`avgMotion > 0.02` and `motionVariance > 0.0005`. -/
def hasRealMotion (m v : ℚ) : Bool :=
  decide (1/50 < m ∧ 1/2000 < v)

/-- Modelled from the spec: the Natural Movement check (30 pts) passes iff the
coefficient of variation `CV = sqrt(motionVariance) / avgMotion` lies strictly
between 0.3 and 0.95, with `avgMotion = 0` forced to fail.  For `m > 0` and
`v ≥ 0` that condition is equivalent to `0.09 * m^2 < v < 0.9025 * m^2`, the
square-root-free form used here so the check stays executable over `ℚ`; the
equivalence with the square-root form is proved below. -/
def hasNaturalMovement (m v : ℚ) : Bool :=
  decide (0 < m ∧ 9/100 * m ^ 2 < v ∧ v < 361/400 * m ^ 2)

/-- Modelled from the spec: the Edge Variance check (20 pts) passes iff
`edgeVariance > 0.001`. -/
def hasNaturalEdges (ev : ℚ) : Bool :=
  decide (1/1000 < ev)

/-- Modelled from the spec: the screen-detected condition,
`brightnessVariance < 100`; the No Screen Artifacts check (10 pts) passes iff
this is false. -/
def screenDetected (bv : ℚ) : Bool :=
  decide (bv < 100)

/-- Modelled from the spec: the Time check (10 pts) passes iff the cumulative
elapsed time since the last reset is at least 4 seconds and the cumulative
frame count since the last reset is at least 20. -/
def timeOk (elapsed : ℚ) (n : ℕ) : Bool :=
  decide (4 ≤ elapsed ∧ 20 ≤ n)

/-- The per-tick verdict record published to the caller, as the spec's data
model lists it.  Immutable; produced fresh every tick. -/
structure LivenessResult where
  motionPassed : Bool
  naturalMovementPassed : Bool
  edgePassed : Bool
  noScreenPassed : Bool
  timePassed : Bool
  totalScore : ℕ
  isLive : Bool
  progressPercent : ℚ
deriving DecidableEq

/-- Modelled from the spec: `checkLiveness()` evaluates the five independent
checks on the current metrics snapshot, sums their points (30+30+20+10+10)
and passes the verdict iff the total reaches 70. -/
def checkLiveness (d : SimpleLivenessDetector) (now : ℚ) : LivenessResult :=
  let hist := motionHistory d.frames
  let mp := hasRealMotion (mean hist) (variance hist)
  let np := hasNaturalMovement (mean hist) (variance hist)
  let ep := hasNaturalEdges (variance (edgeHistory d.frames))
  let sp := !screenDetected (variance (brightnessHistory d.frames))
  let tp := timeOk (now - d.startTime) d.frameCount
  let total := (if mp then 30 else 0) + (if np then 30 else 0) + (if ep then 20 else 0) +
    (if sp then 10 else 0) + (if tp then 10 else 0)
  { motionPassed := mp
    naturalMovementPassed := np
    edgePassed := ep
    noScreenPassed := sp
    timePassed := tp
    totalScore := total
    isLive := decide (70 ≤ total)
    progressPercent := progress d }

/-- The session phases of the spec's state machine.  `Idle` (no frames yet) is
the `frameCount = 0` sub-case of `collecting`; `Retrying` is transient (the
reset happens within the tick and the session re-enters `collecting`). -/
inductive SessionPhase where
  | collecting
  | evaluating
  | verified
deriving DecidableEq

/-- One liveness session, as driven by `startLivenessCheck` of
`WebcamRecognition.tsx`: the detector plus whether the interval has been
cleared because a live verdict was reached (terminal). -/
structure Session where
  detector : SimpleLivenessDetector
  verified : Bool
deriving DecidableEq

/-- The phase the session is in: `verified` once live, otherwise `collecting`
below 15 frames and `evaluating` from 15 frames on. -/
def Session.phase (s : Session) : SessionPhase :=
  if s.verified then .verified
  else if s.detector.frameCount < 15 then .collecting
  else .evaluating

/-- One 200 ms tick of `startLivenessCheck` (`WebcamRecognition.tsx`):
an unavailable frame skips the tick with no state change; otherwise the frame
is added, the verdict computed and published; a live verdict clears the
interval (terminal `verified`), a non-live verdict at full progress resets the
detector, and any other non-live verdict keeps collecting. -/
def tick (s : Session) (input : Option Frame) (now : ℚ) :
    Session × Option LivenessResult :=
  if s.verified then (s, none)
  else
    match input with
    | none => (s, none)
    | some f =>
      let d := addFrame s.detector f
      let r := checkLiveness d now
      if r.isLive then ({ detector := d, verified := true }, some r)
      else if 100 ≤ progress d then ({ detector := reset d now, verified := false }, some r)
      else ({ detector := d, verified := false }, some r)

/-- What one call of `handleRegister` (`WebcamRecognition.tsx`) can do, in the
order its guards appear in the source. -/
inductive RegisterOutcome where
  | alertName
  | noVideo
  | needLiveness
  | captureFailed
  | submit (name : String) (image : String)
deriving DecidableEq

/-- The UI state `handleRegister` reads: the typed name, whether the video
element is mounted, the most recently published liveness verdict, and what
`captureFrame` would return for the current video. -/
structure RegisterUIState where
  registrationName : String
  videoReady : Bool
  livenessCheck : Option LivenessResult
  capture : Option String
deriving DecidableEq

/-- Embedding of `handleRegister` of `WebcamRecognition.tsx`: reject a blank
name, a missing video element, then a missing or failed liveness verdict, then
a failed capture; only then submit the registration request with the trimmed
name and the captured image. -/
def handleRegister (ui : RegisterUIState) : RegisterOutcome :=
  if ui.registrationName.trim = "" then .alertName
  else if ui.videoReady = false then .noVideo
  else
    match ui.livenessCheck with
    | none => .needLiveness
    | some lc =>
      if lc.isLive = false then .needLiveness
      else
        match ui.capture with
        | none => .captureFailed
        | some img => .submit ui.registrationName.trim img

/-! ### Helper lemmas -/

theorem variance_nonneg (xs : List ℚ) : 0 ≤ variance xs := by
  unfold variance
  split
  · exact le_refl 0
  · apply div_nonneg
    · apply List.sum_nonneg
      intro x hx
      simp only [List.mem_map] at hx
      obtain ⟨y, _, rfl⟩ := hx
      positivity
    · positivity

theorem foldl_addFrame_startTime (fs : List Frame) (d : SimpleLivenessDetector) :
    (List.foldl addFrame d fs).startTime = d.startTime := by
  induction fs generalizing d with
  | nil => rfl
  | cons f fs ih => rw [List.foldl_cons, ih]; rfl

theorem foldl_addFrame_frameCount (fs : List Frame) (d : SimpleLivenessDetector) :
    (List.foldl addFrame d fs).frameCount = d.frameCount + fs.length := by
  induction fs generalizing d with
  | nil => simp
  | cons f fs ih =>
    rw [List.foldl_cons, ih]
    simp only [addFrame, List.length_cons]
    omega

theorem checkLiveness_timePassed (d : SimpleLivenessDetector) (now : ℚ) :
    (checkLiveness d now).timePassed = timeOk (now - d.startTime) d.frameCount := rfl

theorem checkLiveness_motionPassed (d : SimpleLivenessDetector) (now : ℚ) :
    (checkLiveness d now).motionPassed =
      hasRealMotion (mean (motionHistory d.frames)) (variance (motionHistory d.frames)) := rfl

theorem checkLiveness_naturalPassed (d : SimpleLivenessDetector) (now : ℚ) :
    (checkLiveness d now).naturalMovementPassed =
      hasNaturalMovement (mean (motionHistory d.frames)) (variance (motionHistory d.frames)) := rfl

theorem checkLiveness_noScreenPassed (d : SimpleLivenessDetector) (now : ℚ) :
    (checkLiveness d now).noScreenPassed =
      !screenDetected (variance (brightnessHistory d.frames)) := rfl

/-! ### Claim theorems -/

/-- C1.  The Scoring Engine's composite score is the sum of the points of
exactly the passing checks (Real Motion 30, Natural Movement 30, Edge
Variance 20, No Screen Artifacts 10, Time 10; maximum 100), and the verdict
`isLive` holds iff the total score is at least 70. -/
theorem score_sum_and_verdict (d : SimpleLivenessDetector) (now : ℚ) :
    (checkLiveness d now).totalScore =
      ((if (checkLiveness d now).motionPassed then 30 else 0) +
       (if (checkLiveness d now).naturalMovementPassed then 30 else 0) +
       (if (checkLiveness d now).edgePassed then 20 else 0) +
       (if (checkLiveness d now).noScreenPassed then 10 else 0) +
       (if (checkLiveness d now).timePassed then 10 else 0)) ∧
    (checkLiveness d now).totalScore ≤ 100 ∧
    ((checkLiveness d now).isLive = true ↔ 70 ≤ (checkLiveness d now).totalScore) := by
  have h1 : (checkLiveness d now).totalScore =
      ((if (checkLiveness d now).motionPassed then 30 else 0) +
       (if (checkLiveness d now).naturalMovementPassed then 30 else 0) +
       (if (checkLiveness d now).edgePassed then 20 else 0) +
       (if (checkLiveness d now).noScreenPassed then 10 else 0) +
       (if (checkLiveness d now).timePassed then 10 else 0)) := rfl
  have h2 : (checkLiveness d now).isLive =
      decide (70 ≤ (checkLiveness d now).totalScore) := rfl
  refine ⟨h1, ?_, ?_⟩
  · rw [h1]
    cases (checkLiveness d now).motionPassed <;>
      cases (checkLiveness d now).naturalMovementPassed <;>
      cases (checkLiveness d now).edgePassed <;>
      cases (checkLiveness d now).noScreenPassed <;>
      cases (checkLiveness d now).timePassed <;> simp
  · rw [h2]
    exact decide_eq_true_iff

/-- C6.  The Time check passes iff the cumulative elapsed time since the last
reset is at least 4 seconds and the cumulative frame count since the last
reset is at least 20 (stated over an arbitrary run: any sequence of accepted
frames after a reset at time `t0`, scored at time `now`). -/
theorem time_check_since_reset (d : SimpleLivenessDetector) (t0 now : ℚ)
    (fs : List Frame) :
    (checkLiveness (List.foldl addFrame (reset d t0) fs) now).timePassed = true ↔
      (4 ≤ now - t0 ∧ 20 ≤ fs.length) := by
  rw [checkLiveness_timePassed, foldl_addFrame_startTime, foldl_addFrame_frameCount]
  simp only [reset, Nat.zero_add]
  simp [timeOk]

/-- C9.  A tick on which the capture collaborator returns no frame leaves the
whole session state unchanged and publishes nothing: the tick is a no-op. -/
theorem tick_unavailable_noop (s : Session) (now : ℚ) :
    tick s none now = (s, none) := by
  rcases s with ⟨d, v⟩
  cases v <;> rfl

theorem lastN_of_length_le (l : List α) (h : l.length ≤ n) : lastN n l = l := by
  unfold lastN
  rw [Nat.sub_eq_zero_of_le h, List.drop_zero]

theorem lastN_cons_of_le (x : α) (t : List α) (h : n ≤ t.length) :
    lastN n (x :: t) = lastN n t := by
  unfold lastN
  have hl : (x :: t).length - n = (t.length - n) + 1 := by
    simp only [List.length_cons]
    omega
  rw [hl, List.drop_succ_cons]

theorem length_lastN (l : List α) (n : ℕ) : (lastN n l).length = min n l.length := by
  unfold lastN
  rw [List.length_drop]
  omega

theorem addFrame_frames (d : SimpleLivenessDetector) (f : Frame)
    (h : d.frames.length ≤ MAX_FRAMES) :
    (addFrame d f).frames = lastN MAX_FRAMES (d.frames ++ [f]) := by
  unfold addFrame
  by_cases hc : d.frames.length = MAX_FRAMES
  · rw [if_pos hc]
    unfold lastN
    have hlen : (d.frames ++ [f]).length - MAX_FRAMES = 1 := by
      simp only [List.length_append, List.length_singleton, hc]
      omega
    rw [hlen, List.drop_append_of_le_length (by rw [hc]; simp [MAX_FRAMES])]
  · rw [if_neg hc,
      lastN_of_length_le (d.frames ++ [f])
        (by simp only [List.length_append, List.length_singleton]; omega)]

theorem addFrame_length_le (d : SimpleLivenessDetector) (f : Frame)
    (h : d.frames.length ≤ MAX_FRAMES) :
    (addFrame d f).frames.length ≤ MAX_FRAMES := by
  rw [addFrame_frames d f h, length_lastN]
  omega

theorem foldl_addFrame_frames (fs : List Frame) (d : SimpleLivenessDetector)
    (h : d.frames.length ≤ MAX_FRAMES) :
    (List.foldl addFrame d fs).frames = lastN MAX_FRAMES (d.frames ++ fs) := by
  induction fs generalizing d with
  | nil => rw [List.foldl_nil, List.append_nil, lastN_of_length_le _ h]
  | cons f fs ih =>
    rw [List.foldl_cons, ih (addFrame d f) (addFrame_length_le d f h),
      addFrame_frames d f h]
    by_cases hc : d.frames.length = MAX_FRAMES
    · obtain ⟨x, t, hxt⟩ : ∃ x t, d.frames = x :: t := by
        cases hd : d.frames with
        | nil => rw [hd] at hc; simp [MAX_FRAMES] at hc
        | cons x t => exact ⟨x, t, rfl⟩
      have ht : t.length = 19 := by
        rw [hxt] at hc
        simp only [List.length_cons, MAX_FRAMES] at hc
        omega
      have h1 : lastN MAX_FRAMES (d.frames ++ [f]) = t ++ [f] := by
        rw [hxt, List.cons_append,
          lastN_cons_of_le x (t ++ [f])
            (by simp only [List.length_append, List.length_singleton, ht, MAX_FRAMES]; omega),
          lastN_of_length_le (t ++ [f])
            (by simp only [List.length_append, List.length_singleton, ht, MAX_FRAMES]; omega)]
      rw [h1, hxt, List.cons_append,
        lastN_cons_of_le x (t ++ f :: fs)
          (by simp only [List.length_append, List.length_cons, ht, MAX_FRAMES]; omega),
        List.append_assoc, List.singleton_append]
    · rw [lastN_of_length_le (d.frames ++ [f])
        (by simp only [List.length_append, List.length_singleton]; omega),
        List.append_assoc, List.singleton_append]

/-- C5.  The Frame Buffer holds at most 20 frames in capture order: below
capacity `addFrame` is plain append, at capacity it evicts the oldest first,
so after inserting 21 frames the buffer is exactly the last 20 inserted
frames — the 1st inserted frame is gone and none of the derived histories
(Motion, Edge, Brightness) of the resulting Metrics Snapshot depend on it. -/
theorem buffer_eviction (t0 : ℚ) (f0 : Frame) (rest : List Frame)
    (h : rest.length = MAX_FRAMES) :
    (List.foldl addFrame (initDetector t0) (f0 :: rest)).frames = rest ∧
    (List.foldl addFrame (initDetector t0) (f0 :: rest)).frames.length = MAX_FRAMES ∧
    motionHistory (List.foldl addFrame (initDetector t0) (f0 :: rest)).frames =
      motionHistory rest ∧
    edgeHistory (List.foldl addFrame (initDetector t0) (f0 :: rest)).frames =
      edgeHistory rest ∧
    brightnessHistory (List.foldl addFrame (initDetector t0) (f0 :: rest)).frames =
      brightnessHistory rest ∧
    (∀ (d : SimpleLivenessDetector) (g : Frame), d.frames.length ≤ MAX_FRAMES →
      (addFrame d g).frames.length ≤ MAX_FRAMES) ∧
    (∀ (d : SimpleLivenessDetector) (g : Frame), d.frames.length < MAX_FRAMES →
      (addFrame d g).frames = d.frames ++ [g]) := by
  have hframes : (List.foldl addFrame (initDetector t0) (f0 :: rest)).frames = rest := by
    rw [foldl_addFrame_frames (f0 :: rest) (initDetector t0) (by simp [initDetector])]
    show lastN MAX_FRAMES ([] ++ f0 :: rest) = rest
    rw [List.nil_append, lastN_cons_of_le f0 rest (by omega),
      lastN_of_length_le rest (by omega)]
  refine ⟨hframes, by rw [hframes, h], by rw [hframes], by rw [hframes], by rw [hframes],
    addFrame_length_le, ?_⟩
  intro d g hlt
  unfold addFrame
  rw [if_neg (by omega)]

/-- C8.  `progress()` equals `min(100, 100 x frames-since-reset / 20)`,
counts frames accepted since the last reset rather than buffer length, is
non-decreasing across any sequence of ticks between two resets, and is 0
immediately after a reset. -/
theorem progress_spec :
    (∀ (d : SimpleLivenessDetector) (now : ℚ), progress (reset d now) = 0) ∧
    (∀ (d : SimpleLivenessDetector) (fs : List Frame),
      progress d ≤ progress (List.foldl addFrame d fs)) ∧
    (∀ (d : SimpleLivenessDetector) (now : ℚ) (fs : List Frame),
      (List.foldl addFrame (reset d now) fs).frameCount = fs.length) ∧
    (∀ d : SimpleLivenessDetector,
      progress d = min 100 (100 * (d.frameCount : ℚ) / 20)) := by
  refine ⟨?_, ?_, ?_, fun _ => rfl⟩
  · intro d now
    simp [progress, reset]
  · intro d fs
    unfold progress
    have hc : d.frameCount ≤ (List.foldl addFrame d fs).frameCount := by
      rw [foldl_addFrame_frameCount]
      omega
    have hq : (d.frameCount : ℚ) ≤ ((List.foldl addFrame d fs).frameCount : ℚ) := by
      exact_mod_cast hc
    apply min_le_min (le_refl (100 : ℚ))
    linarith
  · intro d now fs
    rw [foldl_addFrame_frameCount]
    simp [reset]

/-- C3.  For a non-empty Motion History the Real Motion check passes iff the
mean of the motion scores is strictly above 0.02 and their population
variance strictly above 0.0005; a history whose mean is exactly 0.02 fails
the check no matter the variance. -/
theorem real_motion_check (d : SimpleLivenessDetector) (now : ℚ)
    (h : motionHistory d.frames ≠ []) :
    ((checkLiveness d now).motionPassed = true ↔
      (1/50 < mean (motionHistory d.frames) ∧
        1/2000 < variance (motionHistory d.frames))) ∧
    (mean (motionHistory d.frames) = 1/50 →
      (checkLiveness d now).motionPassed = false) := by
  constructor
  · rw [checkLiveness_motionPassed]
    exact decide_eq_true_iff
  · intro hm
    rw [checkLiveness_motionPassed, hasRealMotion, hm]
    simp

/-- A frame of ten zero pixels. -/
def zeroFrame : Frame := { pixels := [0, 0, 0, 0, 0, 0, 0, 0, 0, 0], timestamp := 0 }

/-- A two-frame detector, giving the one-element Motion History `[0]`. -/
def pairDetector : SimpleLivenessDetector :=
  { frames := [zeroFrame, zeroFrame], frameCount := 2, startTime := 0 }

/-- Witness for C3, at the concrete detector `pairDetector` (non-empty
Motion History). -/
theorem real_motion_check_witness :
    (checkLiveness pairDetector 0).motionPassed = true ↔
      (1/50 < mean (motionHistory pairDetector.frames) ∧
        1/2000 < variance (motionHistory pairDetector.frames)) :=
  (real_motion_check pairDetector 0 (by simp [motionHistory, pairDetector])).1

/-- C7.  `brightnessVariance` is the population variance of the per-frame
total brightness over the most recent 5 frames of the buffer (fewer if fewer
are available: a suffix of length `min 5 bufferLength`), and the No Screen
Artifacts check passes iff that variance is at least 100, i.e. iff the
screen-detected condition `brightnessVariance < 100` is false. -/
theorem no_screen_check (d : SimpleLivenessDetector) (now : ℚ) :
    ((checkLiveness d now).noScreenPassed = true ↔
      ¬ variance (brightnessHistory d.frames) < 100) ∧
    ((checkLiveness d now).noScreenPassed = true ↔
      100 ≤ variance (brightnessHistory d.frames)) ∧
    brightnessHistory d.frames =
      (d.frames.drop (d.frames.length - 5)).map (fun f => f.pixels.sum) ∧
    (lastN 5 d.frames).length = min 5 d.frames.length ∧
    (lastN 5 d.frames) <:+ d.frames := by
  have hb : (checkLiveness d now).noScreenPassed = true ↔
      ¬ variance (brightnessHistory d.frames) < 100 := by
    rw [checkLiveness_noScreenPassed, screenDetected]
    simp
  refine ⟨hb, ?_, rfl, length_lastN d.frames 5, List.drop_suffix _ _⟩
  rw [hb, not_lt]

/-- C4.  The Natural Movement check passes iff the coefficient of variation
`CV = sqrt(motionVariance) / avgMotion` lies strictly between 0.3 and 0.95,
and a zero mean resolves deterministically to a failing check (the check is a
total function: no fault is raised and nothing else of the session is
touched). -/
theorem natural_movement_cv (d : SimpleLivenessDetector) (now : ℚ) :
    ((checkLiveness d now).naturalMovementPassed = true ↔
      (0 < mean (motionHistory d.frames) ∧
        (3/10 : ℝ) < Real.sqrt (variance (motionHistory d.frames)) /
          (mean (motionHistory d.frames) : ℝ) ∧
        Real.sqrt (variance (motionHistory d.frames)) /
          (mean (motionHistory d.frames) : ℝ) < 19/20)) ∧
    (mean (motionHistory d.frames) = 0 →
      (checkLiveness d now).naturalMovementPassed = false) := by
  rw [checkLiveness_naturalPassed]
  constructor
  · rw [hasNaturalMovement, decide_eq_true_iff]
    apply and_congr_right
    intro hm
    have hmR : (0:ℝ) < ((mean (motionHistory d.frames) : ℚ) : ℝ) := by exact_mod_cast hm
    have e1 : ((3/10 : ℝ) < Real.sqrt (variance (motionHistory d.frames)) /
          (mean (motionHistory d.frames) : ℝ)) ↔
        (9/100 * mean (motionHistory d.frames) ^ 2 <
          variance (motionHistory d.frames)) := by
      rw [lt_div_iff₀ hmR,
        Real.lt_sqrt (by positivity : (0:ℝ) ≤ 3/10 * ((mean (motionHistory d.frames) : ℚ) : ℝ)),
        show ((3:ℝ)/10 * ((mean (motionHistory d.frames) : ℚ) : ℝ)) ^ 2 =
          ((9/100 * mean (motionHistory d.frames) ^ 2 : ℚ) : ℝ) from by push_cast; ring]
      exact Rat.cast_lt
    have e2 : (Real.sqrt (variance (motionHistory d.frames)) /
          (mean (motionHistory d.frames) : ℝ) < 19/20) ↔
        (variance (motionHistory d.frames) <
          361/400 * mean (motionHistory d.frames) ^ 2) := by
      rw [div_lt_iff₀ hmR,
        Real.sqrt_lt' (by positivity : (0:ℝ) < 19/20 * ((mean (motionHistory d.frames) : ℚ) : ℝ)),
        show ((19:ℝ)/20 * ((mean (motionHistory d.frames) : ℚ) : ℝ)) ^ 2 =
          ((361/400 * mean (motionHistory d.frames) ^ 2 : ℚ) : ℝ) from by push_cast; ring]
      exact Rat.cast_lt
    exact and_congr e1.symm e2.symm
  · intro hm
    rw [hasNaturalMovement, hm]
    simp

/-- C2.  The session step relation matches the specified state machine: on a
non-verified session, a tick whose published result is live makes the session
terminally `verified` (and any further tick of a verified session is a
no-op: ticking has stopped); a non-live tick below full progress keeps the
grown detector and stays non-verified (collecting/evaluating); a non-live
tick at progress 100 resets the buffer and the cumulative counters (progress
returns to 0) and the session re-enters `collecting`. -/
theorem session_state_machine :
    (∀ (s : Session) (inp : Option Frame) (now : ℚ),
        s.verified = true → tick s inp now = (s, none)) ∧
    (∀ (s : Session) (f : Frame) (now : ℚ), s.verified = false →
      (((checkLiveness (addFrame s.detector f) now).isLive = true →
        (tick s (some f) now).1.verified = true ∧
        (tick s (some f) now).1.phase = SessionPhase.verified ∧
        (tick s (some f) now).2 = some (checkLiveness (addFrame s.detector f) now)) ∧
      ((checkLiveness (addFrame s.detector f) now).isLive = false →
        progress (addFrame s.detector f) < 100 →
        (tick s (some f) now).1 =
          { detector := addFrame s.detector f, verified := false } ∧
        (tick s (some f) now).2 = some (checkLiveness (addFrame s.detector f) now)) ∧
      ((checkLiveness (addFrame s.detector f) now).isLive = false →
        progress (addFrame s.detector f) = 100 →
        (tick s (some f) now).1.detector.frames = [] ∧
        (tick s (some f) now).1.detector.frameCount = 0 ∧
        progress (tick s (some f) now).1.detector = 0 ∧
        (tick s (some f) now).1.verified = false ∧
        (tick s (some f) now).1.phase = SessionPhase.collecting ∧
        (tick s (some f) now).2 =
          some (checkLiveness (addFrame s.detector f) now)))) := by
  constructor
  · rintro ⟨d, v⟩ inp now h
    cases v
    · cases h
    · rfl
  · rintro ⟨d, v⟩ f now h
    cases v
    case true => cases h
    case false =>
    refine ⟨?_, ?_, ?_⟩
    · intro hl
      have ht : tick ⟨d, false⟩ (some f) now =
          ({ detector := addFrame d f, verified := true },
            some (checkLiveness (addFrame d f) now)) := by
        simp [tick, hl]
      rw [ht]
      exact ⟨rfl, rfl, rfl⟩
    · intro hl hp
      have hnp : ¬ (100 : ℚ) ≤ progress (addFrame d f) := not_le.mpr hp
      have ht : tick ⟨d, false⟩ (some f) now =
          ({ detector := addFrame d f, verified := false },
            some (checkLiveness (addFrame d f) now)) := by
        simp [tick, hl, hnp]
      rw [ht]
      exact ⟨rfl, rfl⟩
    · intro hl hp
      have h100 : (100 : ℚ) ≤ progress (addFrame d f) := le_of_eq hp.symm
      have ht : tick ⟨d, false⟩ (some f) now =
          ({ detector := reset (addFrame d f) now, verified := false },
            some (checkLiveness (addFrame d f) now)) := by
        simp [tick, hl, h100]
      rw [ht]
      refine ⟨rfl, rfl, ?_, rfl, ?_, rfl⟩
      · simp [progress, reset]
      · simp [Session.phase, reset]

/-- C10.  Registration is never submitted without a passed liveness check:
`handleRegister` reaches the `registerUser` call only when the most recently
published `LivenessResult` exists and has `isLive = true`, and with a missing
or failed liveness verdict it returns without submitting anything. -/
theorem register_requires_liveness :
    (∀ (ui : RegisterUIState) (n img : String),
      handleRegister ui = RegisterOutcome.submit n img →
        ∃ lc, ui.livenessCheck = some lc ∧ lc.isLive = true) ∧
    (∀ ui : RegisterUIState,
      (ui.livenessCheck = none ∨
        (∃ lc, ui.livenessCheck = some lc ∧ lc.isLive = false)) →
      ∀ n img, handleRegister ui ≠ RegisterOutcome.submit n img) := by
  have main : ∀ (ui : RegisterUIState) (n img : String),
      handleRegister ui = RegisterOutcome.submit n img →
        ∃ lc, ui.livenessCheck = some lc ∧ lc.isLive = true := by
    intro ui n img h
    rcases hlc : ui.livenessCheck with _ | lc
    · exfalso
      unfold handleRegister at h
      rw [hlc] at h
      split at h
      · simp at h
      · split at h
        · simp at h
        · simp at h
    · cases hlive : lc.isLive
      · exfalso
        unfold handleRegister at h
        rw [hlc] at h
        split at h
        · simp at h
        · split at h
          · simp at h
          · simp [hlive] at h
      · exact ⟨lc, rfl, hlive⟩
  refine ⟨main, ?_⟩
  intro ui hbad n img h
  obtain ⟨lc, hlc, hlive⟩ := main ui n img h
  rcases hbad with hnone | ⟨lc2, hlc2, hlive2⟩
  · rw [hnone] at hlc
    cases hlc
  · rw [hlc2] at hlc
    injection hlc with e
    subst e
    simp [hlive] at hlive2

/-- Witness for C5: inserting 21 concrete frames into an empty buffer leaves
exactly the last 20. -/
theorem buffer_eviction_witness :
    (List.foldl addFrame (initDetector 0)
      (zeroFrame :: List.replicate 20 zeroFrame)).frames =
      List.replicate 20 zeroFrame :=
  (buffer_eviction 0 zeroFrame (List.replicate 20 zeroFrame)
    (by simp [MAX_FRAMES])).1

end Liveness
